import Mathlib

/-!
Shallow embedding of the kuberos OIDC helper service (`kuberos.go`,
`extractor/oidc.go`) and proofs about its specification.

Go maps are modelled as association lists, `[]byte` values as `List Nat`
(each element a byte value), machine words as `Nat` reduced modulo `2 ^ 32`
where overflow matters, and fallible Go calls as `Except String _`.
-/

namespace Kuberos

/-- Embeds `oidc.ScopeOpenID`. -/
def scopeOpenID : String := "openid"

/-- Embeds `oidc.ScopeOfflineAccess`. -/
def scopeOfflineAccess : String := "offline_access"

/-- Embeds `DefaultScopes` from `kuberos.go`: the minimum required oauth2 scopes for
every authentication request. -/
def DefaultScopes : List String := [scopeOpenID, "profile", "email"]

/-- Embeds `extractor.OIDCAuthenticationParams`: the parameters required for kubectl
to authenticate to Kubernetes via OIDC (`extractor/oidc.go`). -/
structure OIDCAuthenticationParams where
  Username : String
  ClientID : String
  ClientSecret : String
  IDToken : String
  RefreshToken : String
  IssuerURL : String
  deriving DecidableEq, Repr

/-- The slice of `http.Request` that the kuberos handlers consult: the host,
remote address, headers, user agent (all feeding the state fingerprint) and
the query/form parameters read through `r.FormValue`.  A missing query
parameter is the empty string, exactly as `FormValue` reports it. -/
structure HttpRequest where
  host : String
  remoteAddr : String
  headers : List (String × List String)
  userAgent : String
  formState : String
  formError : String
  formErrorDescription : String
  formErrorURI : String
  formCode : String
  deriving DecidableEq, Repr

/-- An HTTP response as the handlers produce it: a status code and the body
text (for `http.Error` the message, for the success path the JSON payload). -/
structure HttpResponse where
  status : Nat
  body : String
  deriving DecidableEq, Repr

/-- The remote host used by `defaultStateFn` (`kuberos.go` lines 78-87):
`r.RemoteAddr`, unless an `X-Forwarded-For` header entry is present, in which
case the last value of that entry wins. -/
def resolvedRemote (r : HttpRequest) : String :=
  r.headers.foldl
    (fun remote hv =>
      if hv.1 = "X-Forwarded-For" then hv.2.foldl (fun _ host => host) remote
      else remote)
    r.remoteAddr

/-- The provider-denied message of `Handlers.KubeCfg` (`kuberos.go` lines
220-229): the `error` parameter, with `error_description` appended after a
colon when present, and `error_uri` appended in a `(see ...)` suffix when
present. -/
def providerDeniedMsg (r : HttpRequest) : String :=
  let msg := r.formError
  let msg := if r.formErrorDescription ≠ "" then msg ++ ": " ++ r.formErrorDescription else msg
  if r.formErrorURI ≠ "" then msg ++ " (see " ++ r.formErrorURI ++ ")" else msg

/-- Nibble to lower-case hexadecimal digit, as Go's `%x` formatting emits. -/
def hexDigit : Nat → Char
  | 0 => '0' | 1 => '1' | 2 => '2' | 3 => '3'
  | 4 => '4' | 5 => '5' | 6 => '6' | 7 => '7'
  | 8 => '8' | 9 => '9' | 10 => 'a' | 11 => 'b'
  | 12 => 'c' | 13 => 'd' | 14 => 'e' | 15 => 'f'
  | _ => '0'

/-- Go's JSON string escaping (`encoding/json`): `"` and `\` are backslash
escaped, control characters use `\n`/`\r`/`\t` or `\u00XX`, and the
HTML-sensitive characters `<`, `>`, `&` and the line separators U+2028/U+2029
are `\u`-escaped. -/
def jsonEscapeChar (c : Char) : List Char :=
  if c = '"' then ['\\', '"']
  else if c = '\\' then ['\\', '\\']
  else if c = '\n' then ['\\', 'n']
  else if c = '\r' then ['\\', 'r']
  else if c = '\t' then ['\\', 't']
  else if c = '<' then ['\\', 'u', '0', '0', '3', 'c']
  else if c = '>' then ['\\', 'u', '0', '0', '3', 'e']
  else if c = '&' then ['\\', 'u', '0', '0', '2', '6']
  else if c.toNat < 32 then ['\\', 'u', '0', '0', hexDigit (c.toNat / 16), hexDigit (c.toNat % 16)]
  else if c.toNat = 0x2028 then ['\\', 'u', '2', '0', '2', '8']
  else if c.toNat = 0x2029 then ['\\', 'u', '2', '0', '2', '9']
  else [c]

/-- A Go JSON string literal: the escaped text between double quotes. -/
def jsonString (s : String) : String :=
  "\"" ++ String.mk (s.toList.flatMap jsonEscapeChar) ++ "\""

/-- Embeds `json.Marshal` of `OIDCAuthenticationParams`: an object whose members
follow the struct's field order under the struct's json tags
(`email`, `clientID`, `clientSecret`, `idToken`, `refreshToken`, `issuer`). -/
def marshalParams (p : OIDCAuthenticationParams) : String :=
  "\x7b\"email\":" ++ jsonString p.Username ++
  ",\"clientID\":" ++ jsonString p.ClientID ++
  ",\"clientSecret\":" ++ jsonString p.ClientSecret ++
  ",\"idToken\":" ++ jsonString p.IDToken ++
  ",\"refreshToken\":" ++ jsonString p.RefreshToken ++
  ",\"issuer\":" ++ jsonString p.IssuerURL ++ "\x7d"

/-- Embeds `Handlers.KubeCfg` (`kuberos.go` lines 214-262).  `state` is the handler's
state function, `process` the extractor's `Process` as a function of the
authorization code (its other arguments, the context and oauth2 config, do not
influence the control flow modelled here).  The second component records the
codes passed to `Process`, so that the call discipline itself is provable.
`json.Marshal` cannot fail on a struct of string fields, so the handler's 500
branch is unreachable and not modelled; response headers and write failures
are likewise out of scope. -/
def kubeCfg (state : HttpRequest → String)
    (process : String → Except String OIDCAuthenticationParams)
    (r : HttpRequest) : HttpResponse × List String :=
  if r.formState ≠ state r then
    (⟨403, "invalid state parameter"⟩, [])
  else if r.formError ≠ "" then
    (⟨403, providerDeniedMsg r⟩, [])
  else if r.formCode = "" then
    (⟨400, "response missing authorization code"⟩, [])
  else
    match process r.formCode with
    | .error e => (⟨403, "cannot process OAuth2 code: " ++ e⟩, [r.formCode])
    | .ok rsp => (⟨200, marshalParams rsp⟩, [r.formCode])

/-- The loop of `OfflineAsScope` (`kuberos.go` lines 113-117): scan the
advertised scopes for `offline_access`, returning `true` on the first hit. -/
def containsOfflineScope : List String → Bool
  | [] => false
  | s :: rest => if s = scopeOfflineAccess then true else containsOfflineScope rest

/-- Embeds `OfflineAsScope` (`kuberos.go` lines 103-119).  The provider metadata is
the outcome of `p.Claims(&s)`: an error when the raw claims cannot be decoded,
otherwise the `scopes_supported` list (absent field decodes to the empty
list). -/
def OfflineAsScope (claims : Except String (List String)) : Bool :=
  match claims with
  | .error _ => true
  | .ok scopes =>
    if scopes.length = 0 then true
    else containsOfflineScope scopes

/-- Embeds `ScopeRequests` (`kuberos.go` lines 122-125). -/
structure ScopeRequests where
  OfflineAsScope : Bool
  ExtraScopes : List String
  deriving DecidableEq, Repr

/-- Embeds `ScopeRequests.Get` (`kuberos.go` lines 128-134). -/
def ScopeRequests.Get (r : ScopeRequests) : List String :=
  let scopes := DefaultScopes
  let scopes := if r.OfflineAsScope then scopes ++ [scopeOfflineAccess] else scopes
  scopes ++ r.ExtraScopes

/-! ### SHA-256 (`crypto/sha256`), as used by `defaultStateFn`

A faithful executable model of the FIPS 180-4 SHA-256 digest over byte lists,
with 32-bit words carried as `Nat` reduced modulo `2 ^ 32`. -/

/-- Reduce to a 32-bit word. -/
def u32 (x : Nat) : Nat := x % 4294967296

/-- Right rotation of a 32-bit word by `n` bits (`0 < n < 32`, `x < 2 ^ 32`):
the low `n` bits wrap around to the top.  The two parts occupy disjoint bit
ranges, so their sum is their bitwise or. -/
def rotr32 (n x : Nat) : Nat := x / 2 ^ n + x % 2 ^ n * 2 ^ (32 - n)

/-- Logical right shift of a 32-bit word. -/
def shr32 (n x : Nat) : Nat := x / 2 ^ n

/-- Bitwise complement of a 32-bit word. -/
def bnot32 (x : Nat) : Nat := 4294967295 - x % 4294967296

/-- SHA-256 `Ch(x, y, z) = (x ∧ y) ⊕ (¬x ∧ z)`. -/
def sha2Ch (x y z : Nat) : Nat := Nat.xor (Nat.land x y) (Nat.land (bnot32 x) z)

/-- SHA-256 `Maj(x, y, z) = (x ∧ y) ⊕ (x ∧ z) ⊕ (y ∧ z)`. -/
def sha2Maj (x y z : Nat) : Nat :=
  Nat.xor (Nat.xor (Nat.land x y) (Nat.land x z)) (Nat.land y z)

/-- SHA-256 `Σ₀`. -/
def bsig0 (x : Nat) : Nat := Nat.xor (Nat.xor (rotr32 2 x) (rotr32 13 x)) (rotr32 22 x)

/-- SHA-256 `Σ₁`. -/
def bsig1 (x : Nat) : Nat := Nat.xor (Nat.xor (rotr32 6 x) (rotr32 11 x)) (rotr32 25 x)

/-- SHA-256 `σ₀`. -/
def ssig0 (x : Nat) : Nat := Nat.xor (Nat.xor (rotr32 7 x) (rotr32 18 x)) (shr32 3 x)

/-- SHA-256 `σ₁`. -/
def ssig1 (x : Nat) : Nat := Nat.xor (Nat.xor (rotr32 17 x) (rotr32 19 x)) (shr32 10 x)

/-- The 64 SHA-256 round constants, written in decimal. -/
def sha256K : List Nat :=
  [1116352408, 1899447441, 3049323471, 3921009573, 961987163,
   1508970993, 2453635748, 2870763221, 3624381080, 310598401,
   607225278, 1426881987, 1925078388, 2162078206, 2614888103,
   3248222580, 3835390401, 4022224774, 264347078, 604807628,
   770255983, 1249150122, 1555081692, 1996064986, 2554220882,
   2821834349, 2952996808, 3210313671, 3336571891, 3584528711,
   113926993, 338241895, 666307205, 773529912, 1294757372,
   1396182291, 1695183700, 1986661051, 2177026350, 2456956037,
   2730485921, 2820302411, 3259730800, 3345764771, 3516065817,
   3600352804, 4094571909, 275423344, 430227734, 506948616,
   659060556, 883997877, 958139571, 1322822218, 1537002063,
   1747873779, 1955562222, 2024104815, 2227730452, 2361852424,
   2428436474, 2756734187, 3204031479, 3329325298]

/-- The eight 32-bit words of a SHA-256 hash state. -/
structure Sha256State where
  a : Nat
  b : Nat
  c : Nat
  d : Nat
  e : Nat
  f : Nat
  g : Nat
  h : Nat
  deriving Repr

/-- The SHA-256 initial hash value, written in decimal. -/
def sha256Init : Sha256State :=
  ⟨1779033703, 3144134277, 1013904242, 2773480762,
   1359893119, 2600822924, 528734635, 1541459225⟩

/-- The `n` big-endian bytes of `x`. -/
def toBytesBE (n x : Nat) : List Nat :=
  (List.range n).map fun i => x / 2 ^ (8 * (n - 1 - i)) % 256

/-- Group a byte list into big-endian 32-bit words (a trailing fragment of
fewer than four bytes is dropped; padding guarantees there is none). -/
def bytesToWords : List Nat → List Nat
  | a :: b :: c :: d :: rest => (((a * 256 + b) * 256 + c) * 256 + d) :: bytesToWords rest
  | _ => []

/-- Group a word list into 16-word blocks (a trailing fragment is dropped;
padding guarantees there is none). -/
def toBlocks : List Nat → List (List Nat)
  | w0 :: w1 :: w2 :: w3 :: w4 :: w5 :: w6 :: w7 ::
    w8 :: w9 :: w10 :: w11 :: w12 :: w13 :: w14 :: w15 :: rest =>
    [w0, w1, w2, w3, w4, w5, w6, w7, w8, w9, w10, w11, w12, w13, w14, w15] :: toBlocks rest
  | _ => []

/-- MD-strengthening pad: append `0x80`, then zeros to 56 mod 64 bytes, then
the bit length as eight big-endian bytes. -/
def sha256Pad (msg : List Nat) : List Nat :=
  let L := msg.length
  msg ++ 128 :: List.replicate ((119 - L % 64) % 64) 0 ++ toBytesBE 8 (8 * L)

/-- Extend a 16-word block by `n` further schedule words. -/
def extendSchedule : Nat → List Nat → List Nat
  | 0, w => w
  | n + 1, w =>
    let l := w.length
    extendSchedule n
      (w ++ [u32 (ssig1 (w.getD (l - 2) 0) + w.getD (l - 7) 0 +
                  ssig0 (w.getD (l - 15) 0) + w.getD (l - 16) 0)])

/-- One SHA-256 round, consuming a schedule word paired with its constant. -/
def sha256Round (s : Sha256State) (wk : Nat × Nat) : Sha256State :=
  let t1 := u32 (s.h + bsig1 s.e + sha2Ch s.e s.f s.g + wk.2 + wk.1)
  let t2 := u32 (bsig0 s.a + sha2Maj s.a s.b s.c)
  ⟨u32 (t1 + t2), s.a, s.b, s.c, u32 (s.d + t1), s.e, s.f, s.g⟩

/-- Compress one 16-word block into the hash state. -/
def sha256Compress (st : Sha256State) (block : List Nat) : Sha256State :=
  let w := extendSchedule 48 block
  let r := (w.zip sha256K).foldl sha256Round st
  ⟨u32 (st.a + r.a), u32 (st.b + r.b), u32 (st.c + r.c), u32 (st.d + r.d),
   u32 (st.e + r.e), u32 (st.f + r.f), u32 (st.g + r.g), u32 (st.h + r.h)⟩

/-- SHA-256 of a byte list, as the 32-byte digest `h.Sum(nil)` returns it. -/
def sha256 (msg : List Nat) : List Nat :=
  let st := (toBlocks (bytesToWords (sha256Pad msg))).foldl sha256Compress sha256Init
  toBytesBE 4 st.a ++ toBytesBE 4 st.b ++ toBytesBE 4 st.c ++ toBytesBE 4 st.d ++
  toBytesBE 4 st.e ++ toBytesBE 4 st.f ++ toBytesBE 4 st.g ++ toBytesBE 4 st.h

/-- UTF-8 encoding of a character, matching Go's `[]byte(string)`. -/
def utf8Bytes (c : Char) : List Nat :=
  let n := c.toNat
  if n < 0x80 then [n]
  else if n < 0x800 then [192 + n / 64, 128 + n % 64]
  else if n < 0x10000 then [224 + n / 4096, 128 + n / 64 % 64, 128 + n % 64]
  else [240 + n / 262144, 128 + n / 4096 % 64, 128 + n / 64 % 64, 128 + n % 64]

/-- Go's `[]byte(s)`: the UTF-8 bytes of a string. -/
def strBytes (s : String) : List Nat := s.toList.flatMap utf8Bytes

/-- Go's `fmt.Sprintf("%x", bytes)`: two lower-case hex digits per byte. -/
def hexOfBytes (l : List Nat) : String :=
  String.mk (l.flatMap fun b => [hexDigit (b / 16 % 16), hexDigit (b % 16)])

/-- Embeds `defaultStateFn` (`kuberos.go` lines 74-96): the hex SHA-256 of the
secret, the request host, the resolved remote (forwarded-for aware) and the
user agent, concatenated. -/
def defaultStateFn (secret : List Nat) (r : HttpRequest) : String :=
  hexOfBytes (sha256 (secret ++ strBytes r.host ++ strBytes (resolvedRemote r) ++
    strBytes r.userAgent))

/-! ### Handler construction and the login redirect (`kuberos.go`) -/

/-- The slice of `oauth2.Config` the handlers read. -/
structure OAuth2Config where
  clientID : String
  clientSecret : String
  scopes : List String
  redirectURL : String
  deriving DecidableEq, Repr

/-- An `oauth2.AuthCodeOption` as produced by `oauth2.SetAuthURLParam`: a URL
parameter set on the authorization-code URL. -/
structure AuthCodeOption where
  key : String
  value : String
  deriving DecidableEq, Repr

/-- Embeds `oauth2.AccessTypeOffline = SetAuthURLParam("access_type", "offline")`. -/
def accessTypeOffline : AuthCodeOption := ⟨"access_type", "offline"⟩

/-- The handler state assembled by `NewHandlers` that the claims consult: the
oauth2 config and the auth-code options. -/
structure HandlersState where
  cfg : OAuth2Config
  oo : List AuthCodeOption
  deriving DecidableEq, Repr

/-- A `kuberos.Option`: a fallible mutation of the handler state, as the
functional options are. -/
def HandlersOption : Type := HandlersState → Except String HandlersState

/-- Embeds `NewHandlers` (`kuberos.go` lines 174-198): start from
`oo = [oauth2.AccessTypeOffline]` (a Googley request for offline access),
clear it if any configured scope is the offline-access scope, then apply the
caller's options in order. -/
def NewHandlers (c : OAuth2Config) (ho : List HandlersOption) :
    Except String HandlersState :=
  let h : HandlersState := ⟨c, [accessTypeOffline]⟩
  let h := c.scopes.foldl
    (fun h s => if s = scopeOfflineAccess then { h with oo := [] } else h) h
  ho.foldlM (fun h o => o h) h

/-- Embeds `strings.Join(scopes, " ")`. -/
def joinSpace : List String → String
  | [] => ""
  | [s] => s
  | s :: rest => s ++ " " ++ joinSpace rest

/-- The query parameters of `oauth2.Config.AuthCodeURL` (the oauth2 library
call made by `Handlers.Login`, `kuberos.go` line 210): `response_type=code`,
the client id, the redirect/scope/state parameters when non-empty, and one
parameter per auth-code option. -/
def authCodeURLParams (c : OAuth2Config) (state : String)
    (oo : List AuthCodeOption) : List (String × String) :=
  [("response_type", "code"), ("client_id", c.clientID)] ++
  (if c.redirectURL ≠ "" then [("redirect_uri", c.redirectURL)] else []) ++
  (if c.scopes ≠ [] then [("scope", joinSpace c.scopes)] else []) ++
  (if state ≠ "" then [("state", state)] else []) ++
  oo.map fun o => (o.key, o.value)

/-- The parameters of the redirect URL issued by `Handlers.Login` (`kuberos.go`
lines 201-211): `AuthCodeURL` over the handler's config, the state token for
this request, and the handler's auth-code options. -/
def loginParams (h : HandlersState) (state : HttpRequest → String)
    (r : HttpRequest) : List (String × String) :=
  authCodeURLParams h.cfg (state r) h.oo

/-! ### The OIDC claims extractor (`extractor/oidc.go`) -/

/-- The slice of an `oauth2.Token` that `Process` reads: the `id_token` extra
field (absent or non-string modelled as `none`) and the refresh token. -/
structure OAuth2Token where
  extraIDToken : Option String
  refreshToken : String
  deriving DecidableEq, Repr

/-- The slice of a verified `oidc.IDToken` that `Process` reads: the issuer,
and the outcome of decoding its claims into the parameter struct (which sets
the username from the `email` claim). -/
structure IDToken where
  issuer : String
  claimsUsername : Except String String
  deriving Repr

/-- Go's `strings.HasSuffix(s, suffix)`: true when `suffix` is empty or the
last `len(suffix)` bytes of `s` equal `suffix` (stated here over character
lists, which agrees with the byte comparison for valid UTF-8). -/
def goHasSuffix (s suffix : String) : Bool :=
  decide (suffix.toList.length ≤ s.toList.length) &&
  decide (s.toList.drop (s.toList.length - suffix.toList.length) = suffix.toList)

/-- The network-dependent collaborators of `Process`: the outcome of
`cfg.Exchange` for the handled code, and the verifier's `Verify`. -/
structure ExchangeEnv where
  exchange : Except String OAuth2Token
  verify : String → Except String IDToken

/-- Embeds `oidcExtractor.Process` (`extractor/oidc.go` lines 88-123): exchange the
code, require the `id_token` extra, verify it, populate the parameters
(client id/secret from config, raw id token, refresh token, verified issuer,
username from the decoded claims), then enforce the email-domain policy when
one is configured.  Error strings follow `errors.Wrap`'s `msg: cause`
format. -/
def oidcProcess (emailDomain : String) (cfg : OAuth2Config) (env : ExchangeEnv) :
    Except String OIDCAuthenticationParams :=
  match env.exchange with
  | .error e => .error ("cannot exchange code for token: " ++ e)
  | .ok token =>
    match token.extraIDToken with
    | none => .error "response missing ID token"
    | some id =>
      match env.verify id with
      | .error e => .error ("cannot verify ID token: " ++ e)
      | .ok idt =>
        match idt.claimsUsername with
        | .error e => .error ("cannot extract claims from ID token: " ++ e)
        | .ok username =>
          let params : OIDCAuthenticationParams :=
            ⟨username, cfg.clientID, cfg.clientSecret, id, token.refreshToken, idt.issuer⟩
          if emailDomain ≠ "" && !(goHasSuffix params.Username ("@" ++ emailDomain)) then
            .error ("Invalid email domain, expecting " ++ emailDomain)
          else
            .ok params

/-! ### The kubecfg template handler (`kuberos.go` `Template`) -/

/-- Embeds `templateUser` (`kuberos.go` line 37): the fixed name under which the
generated `AuthInfo` is stored and which every generated context references. -/
def templateUser : String := "kuberos"

/-- An `api.Cluster` (connection information for one cluster). -/
structure Cluster where
  server : String
  certificateAuthorityData : List Nat
  deriving DecidableEq, Repr

/-- An `api.Context`: a cluster paired with the auth info used against it. -/
structure KubeContext where
  cluster : String
  authInfo : String
  deriving DecidableEq, Repr

/-- An `api.AuthProviderConfig`. -/
structure AuthProviderConfig where
  name : String
  config : List (String × String)
  deriving DecidableEq, Repr

/-- An `api.AuthInfo` (the fields `Template` writes). -/
structure AuthInfo where
  username : String
  authProvider : Option AuthProviderConfig
  deriving DecidableEq, Repr

/-- An `api.Config`, with its maps modelled as association lists. -/
structure ApiConfig where
  clusters : List (String × Cluster)
  contexts : List (String × KubeContext)
  authInfos : List (String × AuthInfo)
  currentContext : String
  deriving DecidableEq, Repr

/-- The configuration built by the `Template` handler (`kuberos.go` lines
303-323) from the cluster template `cfg` and the decoded parameters `p`: a
fresh `api.Config` holding one `AuthInfo` under the fixed key `templateUser`
carrying the OIDC auth-provider settings, and, for each template cluster, the
cluster copied through plus a context of the same name binding it to
`templateUser`.  No other field of the fresh config is assigned. -/
def templateConfig (cfg : ApiConfig) (p : OIDCAuthenticationParams) : ApiConfig :=
  { clusters := cfg.clusters
    contexts := cfg.clusters.map fun nc => (nc.1, ⟨nc.1, templateUser⟩)
    authInfos := [(templateUser,
      ⟨p.Username, some ⟨"oidc",
        [("client-id", p.ClientID), ("client-secret", p.ClientSecret),
         ("id-token", p.IDToken), ("refresh-token", p.RefreshToken),
         ("idp-issuer-url", p.IssuerURL)]⟩⟩)]
    currentContext := "" }

/-! ### Concrete fixtures used by witnesses and counterexamples -/

/-- The sixteen lower-case hexadecimal digits, the alphabet of Go's `%x`. -/
def hexDigits : List Char := "0123456789abcdef".toList

/-- A sample decoded parameter set used by concrete witnesses. -/
def sampleParams : OIDCAuthenticationParams :=
  ⟨"alice@example.org", "id", "secret", "token", "refresh", "https://issuer.example.org"⟩

/-- A one-cluster template whose default context is set, used by concrete
witnesses and counterexamples. -/
def cexTemplate : ApiConfig :=
  ⟨[("a", ⟨"https://example.org", []⟩)], [], [], "a"⟩

/-! ### Auxiliary lemmas -/

/-- A big-endian byte rendering has exactly the requested width. -/
theorem length_toBytesBE (n x : Nat) : (toBytesBE n x).length = n := by
  simp [toBytesBE]

/-- The SHA-256 digest is 32 bytes long, whatever the message. -/
theorem length_sha256 (msg : List Nat) : (sha256 msg).length = 32 := by
  simp [sha256, length_toBytesBE]

/-- Hex rendering emits two characters per byte. -/
theorem length_hexOfBytes (l : List Nat) : (hexOfBytes l).length = 2 * l.length := by
  induction l with
  | nil => rfl
  | cons b t ih =>
    simp only [hexOfBytes, List.flatMap_cons] at ih ⊢
    simp [String.length] at ih ⊢
    omega

/-- Every output of the nibble renderer is a lower-case hex digit. -/
theorem hexDigit_mem_hexDigits (n : Nat) : hexDigit n ∈ hexDigits := by
  unfold hexDigit
  split <;> decide

/-- Every character of a hex-rendered byte list is a lower-case hex digit. -/
theorem mem_hexOfBytes {c : Char} {l : List Nat} (h : c ∈ (hexOfBytes l).toList) :
    c ∈ hexDigits := by
  have h' : c ∈ l.flatMap fun b => [hexDigit (b / 16 % 16), hexDigit (b % 16)] := h
  rcases List.mem_flatMap.mp h' with ⟨b, -, hc⟩
  simp only [List.mem_cons, List.not_mem_nil, or_false] at hc
  rcases hc with rfl | rfl <;> exact hexDigit_mem_hexDigits _

/-- The default state token is always 64 characters long. -/
theorem length_defaultStateFn (secret : List Nat) (r : HttpRequest) :
    (defaultStateFn secret r).length = 64 := by
  simp [defaultStateFn, length_hexOfBytes, length_sha256]

/-- The offline-scope scan of `OfflineAsScope` decides list membership. -/
theorem containsOfflineScope_iff (l : List String) :
    containsOfflineScope l = true ↔ scopeOfflineAccess ∈ l := by
  induction l with
  | nil => simp [containsOfflineScope]
  | cons s rest ih =>
    by_cases hs : s = scopeOfflineAccess
    · simp [containsOfflineScope, hs]
    · simp [containsOfflineScope, hs, ih, Ne.symm hs]

/-- The scope scan of `NewHandlers` leaves the config untouched and clears the
auth-code options exactly when the offline-access scope occurs. -/
theorem newHandlers_fold (scopes : List String) (h0 : HandlersState) :
    (scopes.foldl
        (fun h s => if s = scopeOfflineAccess then { h with oo := [] } else h) h0).cfg =
      h0.cfg ∧
    (scopes.foldl
        (fun h s => if s = scopeOfflineAccess then { h with oo := [] } else h) h0).oo =
      if scopeOfflineAccess ∈ scopes then [] else h0.oo := by
  induction scopes generalizing h0 with
  | nil => simp
  | cons s rest ih =>
    by_cases hs : s = scopeOfflineAccess
    · simp only [List.foldl_cons, if_pos hs]
      refine ⟨(ih _).1, ?_⟩
      rw [(ih _).2]
      simp [hs]
    · simp only [List.foldl_cons, if_neg hs]
      refine ⟨(ih _).1, ?_⟩
      rw [(ih _).2]
      simp [Ne.symm hs, hs]

/-! ### The claims -/

/-- C1: every callback handled by `Handlers.KubeCfg` applies its failure
checks in order, each terminal: a state mismatch yields 403 with body
"invalid state parameter"; otherwise a present `error` parameter yields 403
with the concatenated provider message; otherwise an empty `code` yields 400;
otherwise a failing `Process` yields 403; otherwise 200 with the
authentication parameters serialized as JSON. -/
theorem kubeCfg_order (state : HttpRequest → String)
    (process : String → Except String OIDCAuthenticationParams) (r : HttpRequest) :
    (r.formState ≠ state r →
      (kubeCfg state process r).1 = ⟨403, "invalid state parameter"⟩) ∧
    (r.formState = state r → r.formError ≠ "" →
      (kubeCfg state process r).1 = ⟨403, providerDeniedMsg r⟩) ∧
    (r.formState = state r → r.formError = "" → r.formCode = "" →
      (kubeCfg state process r).1 = ⟨400, "response missing authorization code"⟩) ∧
    (∀ e, r.formState = state r → r.formError = "" → r.formCode ≠ "" →
      process r.formCode = .error e →
      (kubeCfg state process r).1 = ⟨403, "cannot process OAuth2 code: " ++ e⟩) ∧
    (∀ p, r.formState = state r → r.formError = "" → r.formCode ≠ "" →
      process r.formCode = .ok p →
      (kubeCfg state process r).1 = ⟨200, marshalParams p⟩) := by
  refine ⟨fun h1 => by simp [kubeCfg, h1], fun h1 h2 => by simp [kubeCfg, h1, h2],
    fun h1 h2 h3 => by simp [kubeCfg, h1, h2, h3],
    fun e h1 h2 h3 h4 => by simp [kubeCfg, h1, h2, h3, h4],
    fun p h1 h2 h3 h4 => by simp [kubeCfg, h1, h2, h3, h4]⟩

/-- Witness for C1: each of the five outcomes realized on a concrete
request. -/
theorem kubeCfg_order_witness :
    (kubeCfg (fun _ => "S") (fun _ => .ok sampleParams)
        ⟨"h", "ra", [], "ua", "BAD", "", "", "", ""⟩).1 = ⟨403, "invalid state parameter"⟩ ∧
    (kubeCfg (fun _ => "S") (fun _ => .ok sampleParams)
        ⟨"h", "ra", [], "ua", "S", "denied", "d", "u", ""⟩).1 =
      ⟨403, providerDeniedMsg ⟨"h", "ra", [], "ua", "S", "denied", "d", "u", ""⟩⟩ ∧
    (kubeCfg (fun _ => "S") (fun _ => .ok sampleParams)
        ⟨"h", "ra", [], "ua", "S", "", "", "", ""⟩).1 =
      ⟨400, "response missing authorization code"⟩ ∧
    (kubeCfg (fun _ => "S") (fun _ => .error "boom")
        ⟨"h", "ra", [], "ua", "S", "", "", "", "c"⟩).1 =
      ⟨403, "cannot process OAuth2 code: " ++ "boom"⟩ ∧
    (kubeCfg (fun _ => "S") (fun _ => .ok sampleParams)
        ⟨"h", "ra", [], "ua", "S", "", "", "", "c"⟩).1 = ⟨200, marshalParams sampleParams⟩ :=
  ⟨(kubeCfg_order _ _ _).1 (by decide),
   (kubeCfg_order _ _ _).2.1 rfl (by decide),
   (kubeCfg_order _ _ _).2.2.1 rfl rfl rfl,
   (kubeCfg_order _ _ _).2.2.2.1 "boom" rfl rfl (by decide) rfl,
   (kubeCfg_order _ _ _).2.2.2.2 sampleParams rfl rfl (by decide) rfl⟩

/-- C2 counterexample: on a one-cluster template and username
"alice@example.org", the generated contexts do not reference the username and
the auth-info map is not keyed by it (both are the fixed name "kuberos"), so
the claim as stated fails. -/
theorem templateConfig_keyed_cex :
    ¬ ((templateConfig cexTemplate sampleParams).contexts.length =
          cexTemplate.clusters.length ∧
       (∀ c ∈ (templateConfig cexTemplate sampleParams).contexts,
          c.2.cluster = c.1 ∧ c.2.authInfo = sampleParams.Username) ∧
       (templateConfig cexTemplate sampleParams).authInfos.map Prod.fst =
          [sampleParams.Username]) := by decide

/-- C2 (amended): for a template with N clusters the `Template` handler
produces exactly N contexts, one per cluster name with the context's Cluster
field equal to that name; every context's AuthInfo field is the fixed user
name `templateUser` ("kuberos"), and the output holds exactly one AuthInfo
entry, keyed by `templateUser`, whose Username field records the decoded
username. -/
theorem templateConfig_contexts (cfg : ApiConfig) (p : OIDCAuthenticationParams) :
    (templateConfig cfg p).contexts.length = cfg.clusters.length ∧
    (∀ c ∈ (templateConfig cfg p).contexts,
      c.2.cluster = c.1 ∧ c.2.authInfo = templateUser) ∧
    (templateConfig cfg p).authInfos.map Prod.fst = [templateUser] ∧
    (∀ a ∈ (templateConfig cfg p).authInfos, a.2.username = p.Username) := by
  refine ⟨by simp [templateConfig], ?_, by simp [templateConfig], ?_⟩
  · intro c hc
    simp only [templateConfig, List.mem_map] at hc
    rcases hc with ⟨nc, -, rfl⟩
    exact ⟨rfl, rfl⟩
  · intro a ha
    simp only [templateConfig, List.mem_singleton] at ha
    rw [ha]

/-- Witness for C2 (amended): the amended statement evaluated on the
one-cluster fixture. -/
theorem templateConfig_contexts_witness :
    (templateConfig cexTemplate sampleParams).contexts.length = 1 ∧
    (⟨"a", templateUser⟩ : KubeContext).cluster = "a" ∧
    (⟨"a", templateUser⟩ : KubeContext).authInfo = templateUser ∧
    (templateConfig cexTemplate sampleParams).authInfos.map Prod.fst = [templateUser] := by
  have h := templateConfig_contexts cexTemplate sampleParams
  have hc := h.2.1 ("a", ⟨"a", templateUser⟩) (by decide)
  exact ⟨h.1, hc.1, hc.2, h.2.2.1⟩

/-- C3: the default state function is deterministic: for a fixed secret, two
requests agreeing on host, resolved remote (remote address, or the
forwarded-for value when that header is present) and user agent produce the
same token. -/
theorem defaultStateFn_det (secret : List Nat) (r1 r2 : HttpRequest)
    (hh : r1.host = r2.host) (hr : resolvedRemote r1 = resolvedRemote r2)
    (hu : r1.userAgent = r2.userAgent) :
    defaultStateFn secret r1 = defaultStateFn secret r2 := by
  simp [defaultStateFn, hh, hr, hu]

/-- Witness for C3: two concrete requests differing in raw remote address and
form data but agreeing on the fingerprint (the forwarded-for value wins)
receive the same token. -/
theorem defaultStateFn_det_witness :
    defaultStateFn [115, 51, 99, 114, 51, 116]
        ⟨"kuberos.example.org", "10.0.0.1:4242", [("X-Forwarded-For", ["1.2.3.4"])],
         "kubectl/v1.9", "", "", "", "", ""⟩ =
      defaultStateFn [115, 51, 99, 114, 51, 116]
        ⟨"kuberos.example.org", "10.9.9.9:1111", [("X-Forwarded-For", ["9.9.9.9", "1.2.3.4"])],
         "kubectl/v1.9", "", "", "", "", "code"⟩ :=
  defaultStateFn_det _ _ _ rfl (by decide) rfl

/-- C4: `OfflineAsScope` is true when the provider metadata is unreadable or
the supported-scopes list is empty or contains the offline-access scope, and
false for every non-empty list lacking it. -/
theorem offlineAsScope_policy :
    (∀ e, OfflineAsScope (.error e) = true) ∧
    OfflineAsScope (.ok []) = true ∧
    (∀ scopes, scopeOfflineAccess ∈ scopes → OfflineAsScope (.ok scopes) = true) ∧
    (∀ scopes, scopes ≠ [] → scopeOfflineAccess ∉ scopes →
      OfflineAsScope (.ok scopes) = false) := by
  refine ⟨fun e => rfl, rfl, ?_, ?_⟩
  · intro scopes hmem
    match scopes, hmem with
    | s :: rest, hmem =>
      simp only [OfflineAsScope, List.length_cons]
      rw [if_neg (by simp)]
      exact (containsOfflineScope_iff _).mpr hmem
  · intro scopes hne hmem
    match scopes with
    | s :: rest =>
      simp only [OfflineAsScope, List.length_cons]
      rw [if_neg (by simp)]
      rw [Bool.eq_false_iff]
      intro hc
      exact hmem ((containsOfflineScope_iff _).mp hc)

/-- Witness for C4: the four cases of the policy on concrete metadata. -/
theorem offlineAsScope_policy_witness :
    OfflineAsScope (.error "metadata unreadable") = true ∧
    OfflineAsScope (.ok []) = true ∧
    OfflineAsScope (.ok ["openid", "offline_access"]) = true ∧
    OfflineAsScope (.ok ["openid", "profile"]) = false :=
  ⟨offlineAsScope_policy.1 "metadata unreadable",
   offlineAsScope_policy.2.1,
   offlineAsScope_policy.2.2.1 _ (by decide),
   offlineAsScope_policy.2.2.2 _ (by decide) (by decide)⟩

/-- C5: offline access is requested by at most one mechanism.  For handlers
built by `NewHandlers` with no extra options: when the configured scope list
contains the offline-access scope the auth-code options are empty and the
login redirect carries no `access_type=offline` parameter; otherwise the
options consist exactly of `access_type=offline` (which the login redirect
then carries). -/
theorem newHandlers_offline_once (c : OAuth2Config) (h : HandlersState)
    (state : HttpRequest → String) (r : HttpRequest)
    (hnew : NewHandlers c [] = .ok h) :
    (scopeOfflineAccess ∈ c.scopes →
      h.oo = [] ∧ ("access_type", "offline") ∉ loginParams h state r) ∧
    (scopeOfflineAccess ∉ c.scopes →
      h.oo = [accessTypeOffline] ∧ ("access_type", "offline") ∈ loginParams h state r) := by
  have hh : h = c.scopes.foldl
      (fun h s => if s = scopeOfflineAccess then { h with oo := [] } else h)
      ⟨c, [accessTypeOffline]⟩ := by
    have heq : NewHandlers c [] = .ok (c.scopes.foldl
        (fun h s => if s = scopeOfflineAccess then { h with oo := [] } else h)
        ⟨c, [accessTypeOffline]⟩) := rfl
    rw [heq] at hnew
    exact (Except.ok.injEq _ _ |>.mp hnew.symm)
  have hcfg : h.cfg = c := by rw [hh]; exact (newHandlers_fold _ _).1
  have hoo : h.oo = if scopeOfflineAccess ∈ c.scopes then [] else [accessTypeOffline] := by
    rw [hh]; exact (newHandlers_fold _ _).2
  constructor
  · intro hmem
    rw [if_pos hmem] at hoo
    refine ⟨hoo, ?_⟩
    intro hp
    simp only [loginParams, authCodeURLParams, hoo, hcfg, List.map_nil, List.append_nil] at hp
    rcases List.mem_append.mp hp with hp | hp
    · rcases List.mem_append.mp hp with hp | hp
      · rcases List.mem_append.mp hp with hp | hp
        · simp at hp
        · split at hp <;> simp at hp
      · split at hp <;> simp at hp
    · split at hp <;> simp at hp
  · intro hmem
    rw [if_neg hmem] at hoo
    refine ⟨hoo, ?_⟩
    simp [loginParams, authCodeURLParams, hoo, accessTypeOffline]

/-- Witness for C5: a scope list with offline access yields empty options; the
default scopes yield exactly the `access_type=offline` option, and that
parameter appears among the login redirect parameters. -/
theorem newHandlers_offline_once_witness :
    ((NewHandlers ⟨"cid", "sec", ["openid", "offline_access"], "https://cb"⟩ []).map
      HandlersState.oo = .ok []) ∧
    ((NewHandlers ⟨"cid", "sec", ["openid", "profile", "email"], "https://cb"⟩ []).map
      HandlersState.oo = .ok [accessTypeOffline]) ∧
    ("access_type", "offline") ∈ loginParams
      ⟨⟨"cid", "sec", ["openid", "profile", "email"], "https://cb"⟩, [accessTypeOffline]⟩
      (fun _ => "tok") ⟨"h", "ra", [], "ua", "", "", "", "", ""⟩ := by
  refine ⟨?_, ?_, ?_⟩
  · have hw := (newHandlers_offline_once ⟨"cid", "sec", ["openid", "offline_access"], "https://cb"⟩
      ⟨⟨"cid", "sec", ["openid", "offline_access"], "https://cb"⟩, []⟩
      (fun _ => "tok") ⟨"h", "ra", [], "ua", "", "", "", "", ""⟩ rfl).1 (by decide)
    rw [show (NewHandlers ⟨"cid", "sec", ["openid", "offline_access"], "https://cb"⟩ []) =
      .ok ⟨⟨"cid", "sec", ["openid", "offline_access"], "https://cb"⟩, []⟩ from rfl]
    rfl
  · have hw := (newHandlers_offline_once ⟨"cid", "sec", ["openid", "profile", "email"], "https://cb"⟩
      ⟨⟨"cid", "sec", ["openid", "profile", "email"], "https://cb"⟩, [accessTypeOffline]⟩
      (fun _ => "tok") ⟨"h", "ra", [], "ua", "", "", "", "", ""⟩ rfl).2 (by decide)
    rw [show (NewHandlers ⟨"cid", "sec", ["openid", "profile", "email"], "https://cb"⟩ []) =
      .ok ⟨⟨"cid", "sec", ["openid", "profile", "email"], "https://cb"⟩, [accessTypeOffline]⟩ from rfl]
    rfl
  · exact ((newHandlers_offline_once ⟨"cid", "sec", ["openid", "profile", "email"], "https://cb"⟩
      ⟨⟨"cid", "sec", ["openid", "profile", "email"], "https://cb"⟩, [accessTypeOffline]⟩
      (fun _ => "tok") ⟨"h", "ra", [], "ua", "", "", "", "", ""⟩ rfl).2 (by decide)).2

/-- C6: with a non-empty email-domain policy, `Process` fails on every
otherwise-successful exchange whose username claim does not end in the
configured `@domain` suffix and succeeds (with the populated parameters) when
it does; with no domain configured the check is skipped and such an exchange
always succeeds. -/
theorem oidcProcess_email_domain (domain : String) (cfg : OAuth2Config)
    (env : ExchangeEnv) (tok : OAuth2Token) (id : String) (idt : IDToken) (u : String)
    (hex : env.exchange = .ok tok) (hid : tok.extraIDToken = some id)
    (hv : env.verify id = .ok idt) (hu : idt.claimsUsername = .ok u) :
    (domain ≠ "" → goHasSuffix u ("@" ++ domain) = false →
      oidcProcess domain cfg env = .error ("Invalid email domain, expecting " ++ domain)) ∧
    (domain ≠ "" → goHasSuffix u ("@" ++ domain) = true →
      oidcProcess domain cfg env =
        .ok ⟨u, cfg.clientID, cfg.clientSecret, id, tok.refreshToken, idt.issuer⟩) ∧
    (domain = "" →
      oidcProcess domain cfg env =
        .ok ⟨u, cfg.clientID, cfg.clientSecret, id, tok.refreshToken, idt.issuer⟩) := by
  refine ⟨fun hd hs => ?_, fun hd hs => ?_, fun hd => ?_⟩
  · simp [oidcProcess, hex, hid, hv, hu, hd, hs]
  · simp [oidcProcess, hex, hid, hv, hu, hd, hs]
  · simp [oidcProcess, hex, hid, hv, hu, hd]

/-- Witness for C6: a rejected foreign-domain user, an accepted matching user,
and the same foreign-domain user accepted when no domain is configured. -/
theorem oidcProcess_email_domain_witness :
    oidcProcess "example.org" ⟨"cid", "sec", [], ""⟩
        ⟨.ok ⟨some "jwt", "refresh"⟩,
         fun _ => .ok ⟨"https://issuer", .ok "mallory@evil.net"⟩⟩ =
      .error ("Invalid email domain, expecting " ++ "example.org") ∧
    oidcProcess "example.org" ⟨"cid", "sec", [], ""⟩
        ⟨.ok ⟨some "jwt", "refresh"⟩,
         fun _ => .ok ⟨"https://issuer", .ok "alice@example.org"⟩⟩ =
      .ok ⟨"alice@example.org", "cid", "sec", "jwt", "refresh", "https://issuer"⟩ ∧
    oidcProcess "" ⟨"cid", "sec", [], ""⟩
        ⟨.ok ⟨some "jwt", "refresh"⟩,
         fun _ => .ok ⟨"https://issuer", .ok "mallory@evil.net"⟩⟩ =
      .ok ⟨"mallory@evil.net", "cid", "sec", "jwt", "refresh", "https://issuer"⟩ :=
  ⟨(oidcProcess_email_domain "example.org" _ _ _ "jwt" ⟨"https://issuer", .ok "mallory@evil.net"⟩
      "mallory@evil.net" rfl rfl rfl rfl).1 (by decide) (by decide),
   (oidcProcess_email_domain "example.org" _ _ _ "jwt" ⟨"https://issuer", .ok "alice@example.org"⟩
      "alice@example.org" rfl rfl rfl rfl).2.1 (by decide) (by decide),
   (oidcProcess_email_domain "" _ _ _ "jwt" ⟨"https://issuer", .ok "mallory@evil.net"⟩
      "mallory@evil.net" rfl rfl rfl rfl).2.2 rfl⟩

/-- C7 counterexample: on a template whose default context is "a", the
generated configuration's current-context field is empty, not the template's
value, so the claim as stated fails. -/
theorem templateConfig_currentContext_cex :
    ¬ ((templateConfig cexTemplate sampleParams).currentContext =
        cexTemplate.currentContext) := by decide

/-- C7 (amended): the `Template` handler never copies the template's default
context: the generated configuration's current-context field is always the
empty string (it thus equals the template's only when that is empty too). -/
theorem templateConfig_currentContext (cfg : ApiConfig) (p : OIDCAuthenticationParams) :
    (templateConfig cfg p).currentContext = "" := rfl

/-- C8: the requested scope list is the default identity scopes, then the
offline-access scope exactly when `OfflineAsScope` is set, then the caller's
extra scopes in order. -/
theorem scopeRequests_get (r : ScopeRequests) :
    r.Get = [scopeOpenID, "profile", "email"] ++
      (if r.OfflineAsScope then [scopeOfflineAccess] else []) ++ r.ExtraScopes := by
  cases h : r.OfflineAsScope <;> simp [ScopeRequests.Get, DefaultScopes, h]

/-- C9: under the default state function a callback with an absent (empty)
state parameter is always rejected with 403 "invalid state parameter", because
the generated token is a 64-character string over the hexadecimal alphabet and
hence never empty. -/
theorem kubeCfg_missing_state (secret : List Nat)
    (process : String → Except String OIDCAuthenticationParams) (r : HttpRequest)
    (hs : r.formState = "") :
    (defaultStateFn secret r).length = 64 ∧
    (∀ c ∈ (defaultStateFn secret r).toList, c ∈ hexDigits) ∧
    (kubeCfg (defaultStateFn secret) process r).1 = ⟨403, "invalid state parameter"⟩ := by
  refine ⟨length_defaultStateFn secret r, fun c hc => mem_hexOfBytes hc, ?_⟩
  have hne : r.formState ≠ defaultStateFn secret r := by
    rw [hs]
    intro h
    have hlen := congrArg String.length h
    rw [length_defaultStateFn] at hlen
    simp at hlen
  simp [kubeCfg, hne]

/-- Witness for C9: a concrete state-less request is rejected. -/
theorem kubeCfg_missing_state_witness :
    (defaultStateFn [0] ⟨"h", "ra", [], "ua", "", "", "", "", ""⟩).length = 64 ∧
    (∀ c ∈ (defaultStateFn [0] ⟨"h", "ra", [], "ua", "", "", "", "", ""⟩).toList,
      c ∈ hexDigits) ∧
    (kubeCfg (defaultStateFn [0]) (fun _ => .error "no")
      ⟨"h", "ra", [], "ua", "", "", "", "", ""⟩).1 = ⟨403, "invalid state parameter"⟩ :=
  kubeCfg_missing_state [0] (fun _ => .error "no") ⟨"h", "ra", [], "ua", "", "", "", "", ""⟩ rfl

/-- C10: `Handlers.KubeCfg` calls the extractor's `Process` (exactly once,
with the request's code) precisely when the supplied state matches the
recomputed one, no `error` parameter is present and the `code` parameter is
non-empty; on every other path `Process` is not called. -/
theorem kubeCfg_process_calls (state : HttpRequest → String)
    (process : String → Except String OIDCAuthenticationParams) (r : HttpRequest) :
    ((r.formState = state r ∧ r.formError = "" ∧ r.formCode ≠ "") →
      (kubeCfg state process r).2 = [r.formCode]) ∧
    (¬(r.formState = state r ∧ r.formError = "" ∧ r.formCode ≠ "") →
      (kubeCfg state process r).2 = []) := by
  constructor
  · rintro ⟨h1, h2, h3⟩
    cases hp : process r.formCode <;> simp [kubeCfg, h1, h2, h3, hp]
  · intro h
    by_cases h1 : r.formState = state r
    · by_cases h2 : r.formError = ""
      · by_cases h3 : r.formCode = ""
        · simp [kubeCfg, h1, h2, h3]
        · exact absurd ⟨h1, h2, h3⟩ h
      · simp [kubeCfg, h1, h2]
    · simp [kubeCfg, h1]

/-- Witness for C10: the exchange is attempted exactly on the valid concrete
callback and not on the state-mismatched one. -/
theorem kubeCfg_process_calls_witness :
    (kubeCfg (fun _ => "S") (fun _ => .ok sampleParams)
        ⟨"h", "ra", [], "ua", "S", "", "", "", "c"⟩).2 = ["c"] ∧
    (kubeCfg (fun _ => "S") (fun _ => .ok sampleParams)
        ⟨"h", "ra", [], "ua", "BAD", "", "", "", "c"⟩).2 = [] :=
  ⟨(kubeCfg_process_calls _ _ _).1 ⟨rfl, rfl, by decide⟩,
   (kubeCfg_process_calls _ _ _).2 (by decide)⟩

end Kuberos
